import Mathlib

/-
Verification of the auto-match-pull scheduling and synchronization engine.

The definitions below are a shallow embedding of the Python sources:
  - services/git_service.py  (GitService: pull_repository, the conflict
    resolution strategies, _parse_conflicts)
  - services/scheduler.py    (SchedulerService: _get_pending_mappings,
    _pull_repository_thread, _is_repo_manager_idle)
  - core/database.py         (DatabaseManager.update_pull_status)

External effects (subprocess invocations, the filesystem, sqlite) are made
explicit: each function takes an environment value describing the outcome of
every external call it performs, and functions that invoke subprocesses also
return a trace of the calls they made.
-/

namespace AutoMatchPull

/- ### Character-list string primitives (Python str semantics) -/

/-- Python s.startswith(pre): the first list is a prefix of the second. -/
def starts_chars : List Char → List Char → Bool
  | [], _ => true
  | _ :: _, [] => false
  | x :: xs, y :: ys => x = y && starts_chars xs ys

/-- Python needle in hay (substring containment) on character lists. -/
def contains_chars (needle : List Char) : List Char → Bool
  | [] => needle.isEmpty
  | c :: rest => starts_chars needle (c :: rest) || contains_chars needle rest

/-- Python pre in s written on strings: substring containment. -/
def str_contains (hay needle : String) : Bool :=
  contains_chars needle.data hay.data

/-- Python s.startswith(pre) on strings. -/
def str_starts (s pre : String) : Bool :=
  starts_chars pre.data s.data

/-- Python s.split(chr(10)) on character lists: split at every newline,
keeping empty pieces, so the result is always nonempty. -/
def split_nl : List Char → List (List Char)
  | [] => [[]]
  | c :: rest =>
    if c = '\n' then [] :: split_nl rest
    else
      match split_nl rest with
      | [] => [[c]]
      | g :: gs => (c :: g) :: gs

/-- Python s.split(chr(10)) on strings. -/
def split_lines (s : String) : List String :=
  (split_nl s.data).map (fun cs => String.mk cs)

/-- Python newline.join on character lists. -/
def join_nl : List (List Char) → List Char
  | [] => []
  | [x] => x
  | x :: y :: rest => x ++ '\n' :: join_nl (y :: rest)

/-- Python newline.join on strings. -/
def join_lines (lines : List String) : String :=
  String.mk (join_nl (lines.map String.data))

/-- Python s.lower() (ASCII case fold, as used on git error text). -/
def str_lower (s : String) : String :=
  String.mk (s.data.map Char.toLower)

/-- Python s.strip(): drop whitespace from both ends. -/
def str_strip (s : String) : String :=
  String.mk (((s.data.dropWhile Char.isWhitespace).reverse.dropWhile
    Char.isWhitespace).reverse)

/-- Python sep.join(parts) with separator a comma and a space. -/
def join_comma : List String → String
  | [] => ""
  | [x] => x
  | x :: y :: rest => x ++ ", " ++ join_comma (y :: rest)

/- ### Conflict resolver (git_service.py, _resolve_keep_local /
_resolve_keep_remote / _resolve_keep_both / _smart_merge_conflict /
_try_resolve_conflict)

Each strategy is a line-by-line state machine over the result of
content.split(chr(10)); the states are the Python locals in_conflict and
in_remote_section (plus the two accumulator lists for keep_both). -/

/-- One step of _resolve_keep_local: given (in_conflict, in_remote_section)
and the current line, the next state and the lines emitted for this line. -/
def kl_step (s : Bool × Bool) (line : String) : (Bool × Bool) × List String :=
  if str_starts line "<<<<<<< HEAD" then ((true, false), [])
  else if str_starts line "=======" then ((s.1, true), [])
  else if str_starts line ">>>>>>> " then ((false, false), [])
  else if s.1 = false then (s, [line])
  else if s.2 = false then (s, [line])
  else (s, [])

/-- Run the keep_local machine over a list of lines, returning the final
state and all emitted lines. -/
def kl_run : (Bool × Bool) → List String → (Bool × Bool) × List String
  | s, [] => (s, [])
  | s, line :: rest =>
    let p := kl_step s line
    let q := kl_run p.1 rest
    (q.1, p.2 ++ q.2)

/-- One step of _resolve_keep_remote. -/
def kr_step (s : Bool × Bool) (line : String) : (Bool × Bool) × List String :=
  if str_starts line "<<<<<<< HEAD" then ((true, false), [])
  else if str_starts line "=======" then ((s.1, true), [])
  else if str_starts line ">>>>>>> " then ((false, false), [])
  else if s.1 = false then (s, [line])
  else if s.2 = true then (s, [line])
  else (s, [])

/-- Run the keep_remote machine. -/
def kr_run : (Bool × Bool) → List String → (Bool × Bool) × List String
  | s, [] => (s, [])
  | s, line :: rest =>
    let p := kr_step s line
    let q := kr_run p.1 rest
    (q.1, p.2 ++ q.2)

/-- State of the _resolve_keep_both machine: the Python locals in_conflict,
in_remote_section, local_lines, remote_lines. -/
structure KbState where
  in_conflict : Bool
  in_remote_section : Bool
  local_lines : List String
  remote_lines : List String
deriving DecidableEq

/-- One step of _resolve_keep_both. -/
def kb_step (s : KbState) (line : String) : KbState × List String :=
  if str_starts line "<<<<<<< HEAD" then
    (⟨true, false, [], []⟩,
     ["# ============ 合并冲突 ============", "# 本地版本:"])
  else if str_starts line "=======" then
    ({ s with in_remote_section := true }, s.local_lines ++ ["# 远程版本:"])
  else if str_starts line ">>>>>>> " then
    ({ s with in_conflict := false, in_remote_section := false },
     s.remote_lines ++ ["# ================================"])
  else if s.in_conflict = false then (s, [line])
  else if s.in_remote_section = false then
    ({ s with local_lines := s.local_lines ++ [line] }, [])
  else ({ s with remote_lines := s.remote_lines ++ [line] }, [])

/-- Run the keep_both machine. -/
def kb_run : KbState → List String → KbState × List String
  | s, [] => (s, [])
  | s, line :: rest =>
    let p := kb_step s line
    let q := kb_run p.1 rest
    (q.1, p.2 ++ q.2)

/-- _resolve_keep_local as a pure function from file content to the content
written back. -/
def resolve_keep_local (content : String) : String :=
  join_lines (kl_run (false, false) (split_lines content)).2

/-- _resolve_keep_remote as a pure function. -/
def resolve_keep_remote (content : String) : String :=
  join_lines (kr_run (false, false) (split_lines content)).2

/-- _resolve_keep_both as a pure function. -/
def resolve_keep_both (content : String) : String :=
  join_lines (kb_run ⟨false, false, [], []⟩ (split_lines content)).2

/-- Index of the last occurrence of a character in a list, scanning from
position i (helper for the Python os.path.splitext model). -/
def last_idx_from (c : Char) : List Char → Nat → Option Nat
  | [], _ => none
  | x :: rest, i =>
    match last_idx_from c rest (i + 1) with
    | some j => some j
    | none => if x = c then some i else none

/-- The extension component of Python os.path.splitext(p): the text from the
last dot onward, provided that dot lies after the last slash and the piece
between them is not made of dots only; otherwise the empty string. -/
def splitext_ext (p : String) : String :=
  let cs := p.data
  match last_idx_from '.' cs 0 with
  | none => ""
  | some d =>
    let fstart :=
      match last_idx_from '/' cs 0 with
      | none => 0
      | some k => k + 1
    if fstart ≤ d ∧ ((cs.drop fstart).take (d - fstart)).any (fun ch => ch ≠ '.') then
      String.mk (cs.drop d)
    else ""

/-- _smart_merge_conflict: choose a sub-strategy by the lower-cased file
extension; configuration extensions resolve keep_local, documents and all
remaining (code) extensions resolve keep_both. -/
def smart_merge_conflict (file_path content : String) : String :=
  let ext := str_lower (splitext_ext file_path)
  if [".json", ".yaml", ".yml", ".conf", ".ini", ".toml"].contains ext then
    resolve_keep_local content
  else if [".md", ".txt", ".rst", ".doc"].contains ext then
    resolve_keep_both content
  else resolve_keep_both content

/-- _try_resolve_conflict as a pure function: given the file path, the
strategy name and the file content, return the content left on disk and the
success flag.  If the content holds no start marker it is returned unchanged
with success; otherwise the chosen strategy rewrites it (an unknown strategy
name falls back to keep_both). -/
def try_resolve_conflict (file_path strategy content : String) : String × Bool :=
  if str_contains content "<<<<<<< HEAD" = false then (content, true)
  else if strategy = "smart_merge" then (smart_merge_conflict file_path content, true)
  else if strategy = "keep_both" then (resolve_keep_both content, true)
  else if strategy = "keep_local" then (resolve_keep_local content, true)
  else if strategy = "keep_remote" then (resolve_keep_remote content, true)
  else (resolve_keep_both content, true)

/- ### Structured conflict documents

A well-formed conflicted file is an alternation of plain lines and conflict
regions; rendering one gives the line list the resolver machines consume.
This is the specification-side view used to state what keep_local keeps. -/

/-- A chunk of a conflicted file: either a plain line outside every conflict
region, or one conflict region (start marker line, local variant lines,
separator line, remote variant lines, end marker line). -/
inductive Chunk where
  | plain (line : String)
  | region (startLine : String) (localLines : List String)
      (sepLine : String) (remoteLines : List String) (endLine : String)
deriving DecidableEq

/-- A line that is not itself one of the three conflict markers. -/
def plain_line (l : String) : Bool :=
  !(str_starts l "<<<<<<< HEAD") && !(str_starts l "=======") &&
    !(str_starts l ">>>>>>> ")

/-- Well-formedness of one chunk: marker lines start with their marker and
with no earlier-checked marker; variant lines carry no marker at all. -/
def chunk_wf : Chunk → Bool
  | .plain l => plain_line l
  | .region s loc sep rem e =>
    str_starts s "<<<<<<< HEAD" &&
    loc.all plain_line &&
    (!(str_starts sep "<<<<<<< HEAD") && str_starts sep "=======") &&
    rem.all plain_line &&
    (!(str_starts e "<<<<<<< HEAD") && !(str_starts e "=======") &&
      str_starts e ">>>>>>> ")

/-- Well-formedness of a whole document. -/
def chunks_wf (d : List Chunk) : Bool := d.all chunk_wf

/-- The line list a chunk denotes. -/
def render_chunk : Chunk → List String
  | .plain l => [l]
  | .region s loc sep rem e => s :: (loc ++ sep :: (rem ++ [e]))

/-- The line list a document denotes (the input to the resolvers). -/
def render_chunks (d : List Chunk) : List String :=
  (d.map render_chunk).flatten

/-- The lines keep_local is specified to keep from one chunk: the plain line,
or the local variant of a region. -/
def kept_local_chunk : Chunk → List String
  | .plain l => [l]
  | .region _ loc _ _ _ => loc

/-- The lines keep_local is specified to keep from a document. -/
def kept_local (d : List Chunk) : List String :=
  (d.map kept_local_chunk).flatten

/- ### _parse_conflicts (git_service.py)

The Python code runs re.search(r"CONFLICT.*?in (.+)", line) on every line
containing "CONFLICT".  The regex matches iff some occurrence of "CONFLICT"
is followed, later in the line, by "in " with at least one further
character; the captured group is everything after the first such "in "
following the leftmost viable "CONFLICT". -/

/-- The text after the first occurrence of "in " that is followed by at
least one character; none when no such occurrence exists. -/
def after_first_in : List Char → Option (List Char)
  | 'i' :: 'n' :: ' ' :: c :: rest => some (c :: rest)
  | _ :: rest => after_first_in rest
  | [] => none

/-- re.search(r"CONFLICT.*?in (.+)", line): the captured group, or none. -/
def conflict_search : List Char → Option (List Char)
  | [] => none
  | c :: rest =>
    if starts_chars "CONFLICT".data (c :: rest) then
      match after_first_in ((c :: rest).drop 8) with
      | some g => some g
      | none => conflict_search rest
    else conflict_search rest

/-- The per-line body of _parse_conflicts: the extracted file name if the
line contains "CONFLICT" and the regex matches. -/
def parse_conflict_line (line : String) : Option String :=
  if str_contains line "CONFLICT" then
    (conflict_search line.data).map (fun g => String.mk g)
  else none

/-- _parse_conflicts: collect the extracted file names over all lines of the
error message. -/
def parse_conflicts (error_message : String) : List String :=
  (split_lines error_message).filterMap parse_conflict_line

/- ### GitService.pull_repository (git_service.py)

The function is modelled over an explicit environment recording the outcome
of every external interaction it can perform: the os.path.exists check, the
get_repo_status call (which itself shells out and may raise), the
_resolve_conflicts pass, and the stash push / pull / stash pop subprocess
runs.  Besides the PullResult, the model returns the ordered trace of
external git interactions actually performed, so that "no subprocess was
invoked" is a provable statement. -/

/-- GitStatus (git_service.py dataclass). -/
structure GitStatus where
  is_clean : Bool
  has_conflicts : Bool
  ahead_commits : Int
  behind_commits : Int
  untracked_files : List String
  modified_files : List String
  staged_files : List String
deriving DecidableEq

/-- PullResult (git_service.py dataclass). -/
structure PullResult where
  success : Bool
  message : String
  conflicts : List String
  auto_resolved : Bool := false
deriving DecidableEq

/-- Outcome of the get_repo_status call: a status value, or one of the
exceptions it raises (ValueError for a non-repository, TimeoutError for a
git timeout, or any other exception with its text). -/
inductive StatusOutcome where
  | ok (st : GitStatus)
  | notARepo
  | statusTimeout
  | exn (msg : String)
deriving DecidableEq

/-- One external git interaction performed by pull_repository. -/
inductive GitCall where
  | statusQuery
  | resolveConflictsPass
  | stashPush
  | pullCmd
  | stashPop
deriving DecidableEq

/-- Environment of pull_repository: the outcome of each external call it
may make, fixed up front. -/
structure PullEnv where
  pathExists : Bool
  statusOutcome : StatusOutcome
  unresolvedConflicts : List String
  stashTimeout : Bool
  stashExitZero : Bool
  pullTimeout : Bool
  pullExitZero : Bool
  pullStdout : String
  pullStderr : String
  popTimeout : Bool
deriving DecidableEq

/-- GitService.pull_repository, with the trace of external interactions.
Mirrors the Python control flow: existence check, status query (whose
exceptions are caught by the surrounding handlers), pre-existing conflict
resolution, stash of a dirty tree, the pull itself, stash pop on success,
and classification of a failed pull by its stderr text. -/
def pull_repository_trace (env : PullEnv) (repo_path : String) :
    PullResult × List GitCall :=
  if env.pathExists = false then
    (⟨false, "仓库路径不存在: " ++ repo_path, [], false⟩, [])
  else
    match env.statusOutcome with
    | .notARepo =>
      (⟨false, "Pull操作异常: 不是Git仓库: " ++ repo_path, [], false⟩,
       [.statusQuery])
    | .statusTimeout =>
      (⟨false, "Pull操作异常: Git操作超时: " ++ repo_path, [], false⟩,
       [.statusQuery])
    | .exn m =>
      (⟨false, "Pull操作异常: " ++ m, [], false⟩, [.statusQuery])
    | .ok st =>
      if st.has_conflicts = true ∧ env.unresolvedConflicts ≠ [] then
        (⟨false, "存在无法自动解决的冲突: " ++ join_comma env.unresolvedConflicts,
           env.unresolvedConflicts, false⟩,
         [.statusQuery, .resolveConflictsPass])
      else
        let tr0 : List GitCall :=
          .statusQuery ::
            (if st.has_conflicts then [.resolveConflictsPass] else [])
        if st.is_clean = false ∧ env.stashTimeout = true then
          (⟨false, "Pull操作超时: " ++ repo_path, [], false⟩,
           tr0 ++ [.stashPush])
        else
          let stashed := st.is_clean = false ∧ env.stashExitZero = true
          let tr1 := tr0 ++ (if st.is_clean then [] else [.stashPush])
          if env.pullTimeout = true then
            (⟨false, "Pull操作超时: " ++ repo_path, [], false⟩,
             tr1 ++ [.pullCmd])
          else if env.pullExitZero = true then
            if stashed ∧ env.popTimeout = true then
              (⟨false, "Pull操作超时: " ++ repo_path, [], false⟩,
               tr1 ++ [.pullCmd, .stashPop])
            else
              (⟨true, str_strip env.pullStdout, [], false⟩,
               tr1 ++ [.pullCmd] ++ (if stashed then [.stashPop] else []))
          else
            if str_contains (str_lower env.pullStderr) "conflict" then
              (⟨false, "Pull冲突: " ++ env.pullStderr,
                 parse_conflicts env.pullStderr, false⟩, tr1 ++ [.pullCmd])
            else
              (⟨false, "Pull失败: " ++ env.pullStderr, [], false⟩,
               tr1 ++ [.pullCmd])

/-- GitService.pull_repository: the PullResult alone. -/
def pull_repository (env : PullEnv) (repo_path : String) : PullResult :=
  (pull_repository_trace env repo_path).1

/- ### Scheduler and mapping store (scheduler.py, core/database.py)

Timestamps are modelled as integers measured in minutes, so that the Python
comparison now - last_pull >= timedelta(minutes=k) becomes now - last ≥ k. -/

/-- FolderRepoMapping (core/database.py), restricted to the fields the
scheduler reads and writes. -/
structure FolderRepoMapping where
  id : Int
  repo_path : String
  repo_name : String
  branch : String
  last_pull_at : Option Int
  pull_status : String
  auto_pull_enabled : Bool
  updated_at : Option Int
deriving DecidableEq

/-- SchedulerConfig (scheduler.py dataclass), the timing fields. -/
structure SchedulerConfig where
  pull_interval_minutes : Int := 15
  max_concurrent_pulls : Int := 3
  retry_failed_after_minutes : Int := 120
  cleanup_logs_days : Int := 30
  repo_manager_dependency : Bool := true
deriving DecidableEq

/-- The per-mapping due test inside SchedulerService._get_pending_mappings:
never pulled means due; a success (or any status other than failed and
conflict) is due after the normal interval; failed and conflict are due
after the retry interval. -/
def should_pull (now : Int) (cfg : SchedulerConfig) (m : FolderRepoMapping) : Bool :=
  match m.last_pull_at with
  | none => true
  | some last =>
    if m.pull_status = "success" then
      decide (now - last ≥ cfg.pull_interval_minutes)
    else if m.pull_status = "failed" ∨ m.pull_status = "conflict" then
      decide (now - last ≥ cfg.retry_failed_after_minutes)
    else
      decide (now - last ≥ cfg.pull_interval_minutes)

/-- SchedulerService._get_pending_mappings: keep, in order, the
auto_pull_enabled mappings whose due test holds. -/
def get_pending_mappings (now : Int) (cfg : SchedulerConfig)
    (all_mappings : List FolderRepoMapping) : List FolderRepoMapping :=
  all_mappings.filter (fun m => m.auto_pull_enabled && should_pull now cfg m)

/-- One row of the pull_logs table (a SyncLogEntry). -/
structure PullLogEntry where
  mapping_id : Int
  action : String
  status : String
  message : String
deriving DecidableEq

/-- The mapping store: the folder_repo_mappings table and the pull_logs
table. -/
structure Store where
  mappings : List FolderRepoMapping
  logs : List PullLogEntry
deriving DecidableEq

/-- DatabaseManager.update_pull_status: one transaction that sets the
mapping row's pull_status, last_pull_at and updated_at to the status and the
current time, and inserts one pull_logs row. -/
def update_pull_status (s : Store) (mapping_id : Int) (status message : String)
    (now : Int) : Store :=
  { mappings := s.mappings.map (fun m =>
      if m.id = mapping_id then
        { m with pull_status := status, last_pull_at := some now,
                 updated_at := some now }
      else m),
    logs := s.logs ++ [⟨mapping_id, "pull", status, message⟩] }

/-- SchedulerService._pull_repository_thread, after the semaphore: check the
repository path, run pull_repository, and persist the resulting status
(success / conflict when unresolved conflicts were reported / failed)
through update_pull_status.  The path check and the pull outcome come from
the explicit environment. -/
def pull_repository_thread (store : Store) (m : FolderRepoMapping)
    (env : PullEnv) (now : Int) : Store :=
  if env.pathExists = false then
    update_pull_status store m.id "failed" ("仓库路径不存在: " ++ m.repo_path) now
  else
    let result := pull_repository env m.repo_path
    if result.success then
      update_pull_status store m.id "success" result.message now
    else
      let status := if result.conflicts.isEmpty = false then "conflict" else "failed"
      update_pull_status store m.id status result.message now

/- ### External Gate Check (scheduler.py, _is_repo_manager_idle) -/

/-- Outcome of the ps process-list query: a completed run with its exit
status and stdout, or a raised exception. -/
inductive PsOutcome where
  | ok (exitZero : Bool) (stdout : String)
  | exn
deriving DecidableEq

/-- A ps output line reporting the cooperating tool as running: it mentions
repo-manager and monitor but is not the grep of the query itself. -/
def repo_manager_line (line : String) : Bool :=
  str_contains line "repo-manager" && str_contains line "monitor" &&
    !(str_contains line "grep")

/-- SchedulerService._is_repo_manager_idle: always idle when the dependency
is disabled; idle when the ps query fails or exits non-zero; otherwise idle
iff no stdout line reports the repo-manager monitor process. -/
def is_repo_manager_idle (dependencyEnabled : Bool) (ps : PsOutcome) : Bool :=
  if dependencyEnabled = false then true
  else
    match ps with
    | .exn => true
    | .ok exitZero out =>
      if exitZero = false then true
      else !(split_lines out).any repo_manager_line

/- ### Helper lemmas -/

/-- The due test, characterised: never pulled is due; otherwise failed and
conflict use the retry interval and every other status the normal one. -/
theorem should_pull_iff (now : Int) (cfg : SchedulerConfig)
    (m : FolderRepoMapping) :
    should_pull now cfg m = true ↔
      (m.last_pull_at = none ∨
        ∃ last, m.last_pull_at = some last ∧
          (((m.pull_status = "failed" ∨ m.pull_status = "conflict") ∧
              now - last ≥ cfg.retry_failed_after_minutes) ∨
           (¬(m.pull_status = "failed" ∨ m.pull_status = "conflict") ∧
              now - last ≥ cfg.pull_interval_minutes))) := by
  unfold should_pull
  cases h : m.last_pull_at with
  | none => simp
  | some last =>
    by_cases hs : m.pull_status = "success"
    · have hf : ¬(m.pull_status = "failed" ∨ m.pull_status = "conflict") := by
        rw [hs]; decide
      simp [hs, hf]
    · by_cases hfc : m.pull_status = "failed" ∨ m.pull_status = "conflict"
      · rcases hfc with hf | hc
        · simp [hf]
        · by_cases hf : m.pull_status = "failed"
          · simp [hf]
          · simp [hc, hs, hf]
      · simp [hs, hfc]

/- ### Claims -/

/-- C1: _get_pending_mappings selects exactly the auto_pull_enabled mappings
that are due: a mapping with no last_pull_at is always selected; with
pull_status failed or conflict it is selected iff now - last_pull_at is at
least retry_failed_after_minutes; with any other status (success included)
iff now - last_pull_at is at least pull_interval_minutes, boundary
inclusive.  Mappings with auto_pull_enabled false are never selected. -/
theorem pending_mappings_iff (now : Int) (cfg : SchedulerConfig)
    (all_mappings : List FolderRepoMapping) (m : FolderRepoMapping) :
    m ∈ get_pending_mappings now cfg all_mappings ↔
      m ∈ all_mappings ∧ m.auto_pull_enabled = true ∧
        (m.last_pull_at = none ∨
          ∃ last, m.last_pull_at = some last ∧
            (((m.pull_status = "failed" ∨ m.pull_status = "conflict") ∧
                now - last ≥ cfg.retry_failed_after_minutes) ∨
             (¬(m.pull_status = "failed" ∨ m.pull_status = "conflict") ∧
                now - last ≥ cfg.pull_interval_minutes))) := by
  unfold get_pending_mappings
  rw [List.mem_filter, Bool.and_eq_true, should_pull_iff]

/-- C2: on the literal five-line conflict block, keep_local yields exactly
the local line followed by a newline, keep_remote exactly the remote line
followed by a newline, and keep_both an output holding the unaltered lines
A and B separated by the generated remote-version comment marker. -/
theorem resolve_on_five_line_block :
    resolve_keep_local "<<<<<<< HEAD\nA\n=======\nB\n>>>>>>> x\n" = "A\n" ∧
    resolve_keep_remote "<<<<<<< HEAD\nA\n=======\nB\n>>>>>>> x\n" = "B\n" ∧
    split_lines
        (resolve_keep_both "<<<<<<< HEAD\nA\n=======\nB\n>>>>>>> x\n") =
      ["# ============ 合并冲突 ============", "# 本地版本:", "A",
       "# 远程版本:", "B", "# ================================", ""] := by
  refine ⟨by decide, by decide, by decide⟩

/-- C3: content with no start marker is returned unchanged, byte for byte,
and reported resolved, under every strategy name (the four strategies and
any other name alike). -/
theorem no_marker_unchanged (file_path strategy content : String)
    (h : str_contains content "<<<<<<< HEAD" = false) :
    try_resolve_conflict file_path strategy content = (content, true) := by
  unfold try_resolve_conflict
  rw [h]
  simp

/-- Witness for C3 at a concrete marker-free content. -/
theorem no_marker_unchanged_witness :
    try_resolve_conflict "notes.md" "smart_merge" "hello\nworld" =
      ("hello\nworld", true) :=
  no_marker_unchanged "notes.md" "smart_merge" "hello\nworld" (by decide)

/-- C5: on a repository path that does not exist, pull_repository returns a
failure PullResult with an empty conflicts list at once, and the trace of
external git interactions is empty: no subprocess runs. -/
theorem pull_missing_path (env : PullEnv) (repo_path : String)
    (h : env.pathExists = false) :
    pull_repository_trace env repo_path =
      (⟨false, "仓库路径不存在: " ++ repo_path, [], false⟩, []) := by
  unfold pull_repository_trace
  rw [h]
  simp

/-- Witness for C5 at a concrete environment. -/
theorem pull_missing_path_witness :
    pull_repository_trace
        ⟨false, .ok ⟨true, false, 0, 0, [], [], []⟩, [], false, false, false,
          true, "", "", false⟩ "/tmp/nowhere" =
      (⟨false, "仓库路径不存在: /tmp/nowhere", [], false⟩, []) :=
  pull_missing_path _ "/tmp/nowhere" rfl

/-- C9: the gate check is fail-open: disabled dependency means idle, a
failing process-list query (exception or non-zero exit) means idle, and a
non-idle answer can only arise from a successful query whose output has a
line reporting the repo-manager monitor process. -/
theorem gate_fail_open (dep : Bool) (ps : PsOutcome) :
    (dep = false → is_repo_manager_idle dep ps = true) ∧
    (ps = .exn → is_repo_manager_idle dep ps = true) ∧
    (∀ out, ps = .ok false out → is_repo_manager_idle dep ps = true) ∧
    (is_repo_manager_idle dep ps = false →
      dep = true ∧ ∃ out, ps = .ok true out ∧
        ∃ line ∈ split_lines out, repo_manager_line line = true) := by
  cases dep with
  | false =>
    refine ⟨fun _ => by simp [is_repo_manager_idle],
      fun _ => by simp [is_repo_manager_idle],
      fun out _ => by simp [is_repo_manager_idle], fun h => ?_⟩
    simp [is_repo_manager_idle] at h
  | true =>
    cases ps with
    | exn =>
      refine ⟨fun h => by simp at h, fun _ => by simp [is_repo_manager_idle],
        fun o ho => by simp at ho, fun h => ?_⟩
      simp [is_repo_manager_idle] at h
    | ok ez out =>
      cases ez with
      | false =>
        refine ⟨fun h => by simp at h, fun h => by simp at h,
          fun o ho => by simp [is_repo_manager_idle], fun h => ?_⟩
        simp [is_repo_manager_idle] at h
      | true =>
        refine ⟨fun h => by simp at h, fun h => by simp at h,
          fun o ho => by simp at ho, fun h => ?_⟩
        simp only [is_repo_manager_idle] at h
        simp at h
        exact ⟨rfl, out, rfl, h⟩

/-- Witness for C9: a disabled dependency with a failed query is idle. -/
theorem gate_fail_open_witness :
    is_repo_manager_idle false PsOutcome.exn = true :=
  (gate_fail_open false PsOutcome.exn).1 rfl

/- ### keep_local structure lemmas (towards C4) -/

/-- Running the keep_local machine over a concatenation splits into the two
runs, threading the state. -/
theorem kl_run_append (s : Bool × Bool) (xs ys : List String) :
    kl_run s (xs ++ ys) =
      ((kl_run (kl_run s xs).1 ys).1,
        (kl_run s xs).2 ++ (kl_run (kl_run s xs).1 ys).2) := by
  induction xs generalizing s with
  | nil => simp [kl_run]
  | cons x rest ih => simp [kl_run, ih]

/-- Each keep_local step emits either nothing or the line itself. -/
theorem kl_step_emits (s : Bool × Bool) (line : String) :
    (kl_step s line).2 = [] ∨ (kl_step s line).2 = [line] := by
  unfold kl_step
  by_cases h1 : str_starts line "<<<<<<< HEAD" <;>
    by_cases h2 : str_starts line "=======" <;>
      by_cases h3 : str_starts line ">>>>>>> " <;>
        by_cases h4 : s.1 = false <;>
          by_cases h5 : s.2 = false <;>
            simp [h1, h2, h3, h4, h5]

/-- The keep_local output is a sublist of the input lines: every output
line is an input line, unchanged and in input order. -/
theorem kl_run_sublist (s : Bool × Bool) (lines : List String) :
    (kl_run s lines).2.Sublist lines := by
  induction lines generalizing s with
  | nil => simp [kl_run]
  | cons x rest ih =>
    show ((kl_step s x).2 ++ (kl_run (kl_step s x).1 rest).2).Sublist (x :: rest)
    rcases kl_step_emits s x with h | h <;> rw [h]
    · exact (ih (kl_step s x).1).cons x
    · exact (ih (kl_step s x).1).cons₂ x

/-- On a marker-free line in the local section, the machine stays put and
emits the line. -/
theorem kl_step_local (line : String) (h : plain_line line = true) :
    kl_step (true, false) line = ((true, false), [line]) := by
  have h' := h
  unfold plain_line at h'
  simp only [Bool.and_eq_true, Bool.not_eq_true'] at h'
  unfold kl_step
  simp [h'.1.1, h'.1.2, h'.2]

/-- On a marker-free line in the remote section, the machine stays put and
emits nothing. -/
theorem kl_step_remote (line : String) (h : plain_line line = true) :
    kl_step (true, true) line = ((true, true), []) := by
  have h' := h
  unfold plain_line at h'
  simp only [Bool.and_eq_true, Bool.not_eq_true'] at h'
  unfold kl_step
  simp [h'.1.1, h'.1.2, h'.2]

/-- On a marker-free line outside every conflict, the machine stays put and
emits the line. -/
theorem kl_step_outside (line : String) (h : plain_line line = true) :
    kl_step (false, false) line = ((false, false), [line]) := by
  have h' := h
  unfold plain_line at h'
  simp only [Bool.and_eq_true, Bool.not_eq_true'] at h'
  unfold kl_step
  simp [h'.1.1, h'.1.2, h'.2]

/-- In the local section, a run over marker-free lines keeps them all. -/
theorem kl_run_local (loc : List String) (h : loc.all plain_line = true) :
    kl_run (true, false) loc = ((true, false), loc) := by
  induction loc with
  | nil => simp [kl_run]
  | cons x rest ih =>
    rw [List.all_cons, Bool.and_eq_true] at h
    show (let p := kl_step (true, false) x
          let q := kl_run p.1 rest
          (q.1, p.2 ++ q.2)) = ((true, false), x :: rest)
    rw [kl_step_local x h.1]
    simp [ih h.2]

/-- In the remote section, a run over marker-free lines drops them all. -/
theorem kl_run_remote (rem : List String) (h : rem.all plain_line = true) :
    kl_run (true, true) rem = ((true, true), []) := by
  induction rem with
  | nil => simp [kl_run]
  | cons x rest ih =>
    rw [List.all_cons, Bool.and_eq_true] at h
    show (let p := kl_step (true, true) x
          let q := kl_run p.1 rest
          (q.1, p.2 ++ q.2)) = ((true, true), [])
    rw [kl_step_remote x h.1]
    simp [ih h.2]

/-- Over one well-formed chunk, keep_local returns to the outside state and
emits exactly the chunk's kept lines: the plain line, or the local variant
of a region. -/
theorem kl_run_chunk (c : Chunk) (h : chunk_wf c = true) :
    kl_run (false, false) (render_chunk c) = ((false, false), kept_local_chunk c) := by
  cases c with
  | plain l =>
    show (let p := kl_step (false, false) l
          let q := kl_run p.1 []
          (q.1, p.2 ++ q.2)) = ((false, false), [l])
    rw [kl_step_outside l h]
    simp [kl_run]
  | region s loc sep rem e =>
    unfold chunk_wf at h
    simp only [Bool.and_eq_true, Bool.not_eq_true'] at h
    obtain ⟨⟨⟨⟨hs, hloc⟩, hsep1, hsep2⟩, hrem⟩, ⟨he1, he2⟩, he3⟩ := h
    show (let p := kl_step (false, false) s
          let q := kl_run p.1 (loc ++ sep :: (rem ++ [e]))
          (q.1, p.2 ++ q.2)) = ((false, false), loc)
    have hstep : kl_step (false, false) s = ((true, false), []) := by
      unfold kl_step
      simp [hs]
    rw [hstep]
    simp only []
    rw [kl_run_append (true, false) loc (sep :: (rem ++ [e])), kl_run_local loc hloc]
    have hsepstep : kl_step (true, false) sep = ((true, true), []) := by
      unfold kl_step
      simp [hsep1, hsep2]
    show ((kl_run (true, false) (sep :: (rem ++ [e]))).1,
        [] ++ (loc ++ (kl_run (true, false) (sep :: (rem ++ [e]))).2)) = ((false, false), loc)
    have hrest : kl_run (true, false) (sep :: (rem ++ [e])) = ((false, false), []) := by
      show (let p := kl_step (true, false) sep
            let q := kl_run p.1 (rem ++ [e])
            (q.1, p.2 ++ q.2)) = ((false, false), [])
      rw [hsepstep]
      simp only []
      rw [kl_run_append (true, true) rem [e], kl_run_remote rem hrem]
      have hestep : kl_step (true, true) e = ((false, false), []) := by
        unfold kl_step
        simp [he1, he2, he3]
      have he' : kl_run (true, true) [e] = ((false, false), []) := by
        show (let p := kl_step (true, true) e
              let q := kl_run p.1 []
              (q.1, p.2 ++ q.2)) = ((false, false), [])
        rw [hestep]
        simp [kl_run]
      rw [he']
      simp
    rw [hrest]
    simp

/-- Over a whole well-formed document, keep_local emits exactly the plain
lines and the local variants, in order. -/
theorem kl_run_chunks (d : List Chunk) (h : chunks_wf d = true) :
    kl_run (false, false) (render_chunks d) = ((false, false), kept_local d) := by
  induction d with
  | nil => simp [render_chunks, kept_local, kl_run]
  | cons c rest ih =>
    unfold chunks_wf at h
    rw [List.all_cons, Bool.and_eq_true] at h
    have hrender : render_chunks (c :: rest) = render_chunk c ++ render_chunks rest := by
      simp [render_chunks]
    have hkept : kept_local (c :: rest) = kept_local_chunk c ++ kept_local rest := by
      simp [kept_local]
    rw [hrender, kl_run_append, kl_run_chunk c h.1]
    rw [hkept]
    have := ih h.2
    simp only [this]

/-- C4: the keep_local strategy discards exactly the marker lines and the
remote variants and fabricates nothing.  First part: on any line list
whatsoever the output is a sublist of the input (every output line is an
input line, unchanged and in order).  Second part: on any well-formed
conflicted document the output is exactly the lines outside conflict
regions plus the complete local variant of each region, in order. -/
theorem keep_local_frame :
    (∀ lines : List String, (kl_run (false, false) lines).2.Sublist lines) ∧
    (∀ d : List Chunk, chunks_wf d = true →
      (kl_run (false, false) (render_chunks d)).2 = kept_local d) := by
  refine ⟨fun lines => kl_run_sublist (false, false) lines, fun d h => ?_⟩
  rw [kl_run_chunks d h]

/-- Witness for C4 on the concrete five-line conflict document. -/
theorem keep_local_frame_witness :
    (kl_run (false, false)
        (render_chunks
          [Chunk.region "<<<<<<< HEAD" ["A"] "=======" ["B"] ">>>>>>> x",
           Chunk.plain ""])).2 =
      kept_local
        [Chunk.region "<<<<<<< HEAD" ["A"] "=======" ["B"] ">>>>>>> x",
         Chunk.plain ""] :=
  keep_local_frame.2
    [Chunk.region "<<<<<<< HEAD" ["A"] "=======" ["B"] ">>>>>>> x",
     Chunk.plain ""] (by decide)

/- ### pull_repository totality and classification (towards C6, C8, C10) -/

/-- Full characterisation of a successful pull: the path exists, the status
query returned a value, pre-existing conflicts (if any) were all resolved,
no stash push timed out on a dirty tree, the pull neither timed out nor
exited non-zero, and no stash pop timed out afterwards. -/
theorem pull_success_iff (env : PullEnv) (p : String) :
    (pull_repository env p).success = true ↔
      env.pathExists = true ∧
      (∃ st, env.statusOutcome = .ok st ∧
        ¬(st.has_conflicts = true ∧ env.unresolvedConflicts ≠ []) ∧
        ¬(st.is_clean = false ∧ env.stashTimeout = true) ∧
        ¬((st.is_clean = false ∧ env.stashExitZero = true) ∧
            env.popTimeout = true)) ∧
      env.pullTimeout = false ∧ env.pullExitZero = true := by
  unfold pull_repository pull_repository_trace
  by_cases hp : env.pathExists = false
  · simp [hp]
  · have hp' : env.pathExists = true := by
      revert hp; cases env.pathExists <;> simp
    cases hst : env.statusOutcome with
    | notARepo => simp [hp', hst]
    | statusTimeout => simp [hp', hst]
    | exn m => simp [hp', hst]
    | ok st =>
      by_cases h1 : st.has_conflicts = true ∧ env.unresolvedConflicts ≠ []
      · simp [hp', hst, h1]
      · by_cases h2 : st.is_clean = false ∧ env.stashTimeout = true
        · simp [hp', hst, h1, h2]
        · by_cases h3 : env.pullTimeout = true
          · simp [hp', hst, h1, h2, h3]
          · have h3' : env.pullTimeout = false := by
              revert h3; cases env.pullTimeout <;> simp
            by_cases h4 : env.pullExitZero = true
            · by_cases h5 : (st.is_clean = false ∧ env.stashExitZero = true) ∧
                  env.popTimeout = true
              · simp [hp', hst, h1, h2, h3', h4, h5]
                split <;> rfl
              · simp [hp', hst, h1, h2, h3', h4, h5]
                refine ⟨fun hc => ?_, fun hcl => ?_, fun hcl hse => ?_⟩
                · cases hne : env.unresolvedConflicts with
                  | nil => rfl
                  | cons a t => exact absurd ⟨hc, by simp [hne]⟩ h1
                · cases henv : env.stashTimeout with
                  | false => rfl
                  | true => exact absurd ⟨hcl, henv⟩ h2
                · cases henv : env.popTimeout with
                  | false => rfl
                  | true => exact absurd ⟨⟨hcl, hse⟩, henv⟩ h5
            · have h4' : env.pullExitZero = false := by
                revert h4; cases env.pullExitZero <;> simp
              by_cases h6 :
                  str_contains (str_lower env.pullStderr) "conflict" = true
              · simp [hp', hst, h1, h2, h3', h4', h6]
              · simp [hp', hst, h1, h2, h3', h4', h6]

/-- C6: pull_repository is total at its boundary.  In the embedding it
returns a PullResult on every environment by construction, and on each of
the error outcomes — missing path, not a repository, a status-query or pull
timeout, unresolvable pre-existing conflicts, a non-zero pull exit — the
result carries success = false (with the unresolved files reported in the
conflicts list in the unresolved-conflict case). -/
theorem pull_total (env : PullEnv) (p : String) :
    (env.pathExists = false → (pull_repository env p).success = false) ∧
    (env.statusOutcome = .notARepo → (pull_repository env p).success = false) ∧
    (env.statusOutcome = .statusTimeout →
      (pull_repository env p).success = false) ∧
    (∀ m, env.statusOutcome = .exn m →
      (pull_repository env p).success = false) ∧
    (∀ st, env.pathExists = true → env.statusOutcome = .ok st →
      st.has_conflicts = true → env.unresolvedConflicts ≠ [] →
      (pull_repository env p).success = false ∧
        (pull_repository env p).conflicts = env.unresolvedConflicts) ∧
    (env.pullTimeout = true → (pull_repository env p).success = false) ∧
    (env.pullExitZero = false → (pull_repository env p).success = false) := by
  refine ⟨?_, ?_, ?_, ?_, ?_, ?_, ?_⟩
  · intro h
    cases hs : (pull_repository env p).success
    · rfl
    · obtain ⟨hp', _, _, _⟩ := (pull_success_iff env p).mp hs
      rw [h] at hp'
      exact Bool.noConfusion hp'
  · intro h
    cases hs : (pull_repository env p).success
    · rfl
    · obtain ⟨_, ⟨st, hok, _⟩, _⟩ := (pull_success_iff env p).mp hs
      rw [h] at hok
      exact StatusOutcome.noConfusion hok
  · intro h
    cases hs : (pull_repository env p).success
    · rfl
    · obtain ⟨_, ⟨st, hok, _⟩, _⟩ := (pull_success_iff env p).mp hs
      rw [h] at hok
      exact StatusOutcome.noConfusion hok
  · intro m h
    cases hs : (pull_repository env p).success
    · rfl
    · obtain ⟨_, ⟨st, hok, _⟩, _⟩ := (pull_success_iff env p).mp hs
      rw [h] at hok
      exact StatusOutcome.noConfusion hok
  · intro st hp hst hcf hne
    unfold pull_repository pull_repository_trace
    simp [hp, hst, hcf, hne]
  · intro h
    cases hs : (pull_repository env p).success
    · rfl
    · obtain ⟨_, _, hpt, _⟩ := (pull_success_iff env p).mp hs
      rw [h] at hpt
      exact Bool.noConfusion hpt
  · intro h
    cases hs : (pull_repository env p).success
    · rfl
    · obtain ⟨_, _, _, hpz⟩ := (pull_success_iff env p).mp hs
      rw [h] at hpz
      exact Bool.noConfusion hpz

/-- Witness for C6: unresolvable pre-existing conflicts produce a failure
result listing the unresolved files. -/
theorem pull_total_witness :
    (pull_repository
        ⟨true, .ok ⟨false, true, 0, 0, [], ["a.txt"], []⟩, ["a.txt"], false,
          false, false, true, "", "", false⟩ "/tmp/repo").success = false ∧
    (pull_repository
        ⟨true, .ok ⟨false, true, 0, 0, [], ["a.txt"], []⟩, ["a.txt"], false,
          false, false, true, "", "", false⟩ "/tmp/repo").conflicts =
      ["a.txt"] :=
  (pull_total
      ⟨true, .ok ⟨false, true, 0, 0, [], ["a.txt"], []⟩, ["a.txt"], false,
        false, false, true, "", "", false⟩ "/tmp/repo").2.2.2.2.1
    ⟨false, true, 0, 0, [], ["a.txt"], []⟩ rfl rfl rfl (by decide)

/-- On a clean, conflict-free repository whose pull succeeds, the result is
success with no conflicts, and the only external interactions are the
status query and the pull itself. -/
theorem pull_healthy (env : PullEnv) (p : String) (st : GitStatus)
    (h1 : env.pathExists = true) (h2 : env.statusOutcome = .ok st)
    (h3 : st.is_clean = true) (h4 : st.has_conflicts = false)
    (h7 : env.pullTimeout = false) (h8 : env.pullExitZero = true) :
    pull_repository_trace env p =
      (⟨true, str_strip env.pullStdout, [], false⟩,
       [.statusQuery, .pullCmd]) := by
  unfold pull_repository_trace
  simp [h1, h2, h3, h4, h7, h8]

/-- C8: syncing is idempotent on a healthy repository.  Under a clean,
up-to-date working tree whose external pull succeeds, pull_repository
returns success with an empty conflicts list and touches the tree through
no stash or conflict-resolution call; a second call under the same
conditions (same healthy status, same pull output) returns the very same
successful result. -/
theorem pull_idempotent (env env' : PullEnv) (p : String)
    (st st' : GitStatus)
    (h1 : env.pathExists = true) (h2 : env.statusOutcome = .ok st)
    (h3 : st.is_clean = true) (h4 : st.has_conflicts = false)
    (h5 : st.ahead_commits = 0) (h6 : st.behind_commits = 0)
    (h7 : env.pullTimeout = false) (h8 : env.pullExitZero = true)
    (g1 : env'.pathExists = true) (g2 : env'.statusOutcome = .ok st')
    (g3 : st'.is_clean = true) (g4 : st'.has_conflicts = false)
    (g5 : st'.ahead_commits = 0) (g6 : st'.behind_commits = 0)
    (g7 : env'.pullTimeout = false) (g8 : env'.pullExitZero = true)
    (hstd : env'.pullStdout = env.pullStdout) :
    pull_repository_trace env p =
      (⟨true, str_strip env.pullStdout, [], false⟩,
       [.statusQuery, .pullCmd]) ∧
    pull_repository_trace env' p = pull_repository_trace env p := by
  have ha := pull_healthy env p st h1 h2 h3 h4 h7 h8
  have hb := pull_healthy env' p st' g1 g2 g3 g4 g7 g8
  refine ⟨ha, ?_⟩
  rw [ha, hb, hstd]

/-- Witness for C8 on a concrete healthy environment. -/
theorem pull_idempotent_witness :
    pull_repository_trace
        ⟨true, .ok ⟨true, false, 0, 0, [], [], []⟩, [], false, false, false,
          true, "Already up to date.", "", false⟩ "/tmp/repo" =
      (⟨true, str_strip "Already up to date.", [], false⟩,
       [.statusQuery, .pullCmd]) ∧
    pull_repository_trace
        ⟨true, .ok ⟨true, false, 0, 0, [], [], []⟩, [], false, false, false,
          true, "Already up to date.", "", false⟩ "/tmp/repo" =
      pull_repository_trace
        ⟨true, .ok ⟨true, false, 0, 0, [], [], []⟩, [], false, false, false,
          true, "Already up to date.", "", false⟩ "/tmp/repo" :=
  pull_idempotent
    ⟨true, .ok ⟨true, false, 0, 0, [], [], []⟩, [], false, false, false,
      true, "Already up to date.", "", false⟩
    ⟨true, .ok ⟨true, false, 0, 0, [], [], []⟩, [], false, false, false,
      true, "Already up to date.", "", false⟩ "/tmp/repo"
    ⟨true, false, 0, 0, [], [], []⟩ ⟨true, false, 0, 0, [], [], []⟩
    rfl rfl rfl rfl rfl rfl rfl rfl rfl rfl rfl rfl rfl rfl rfl rfl rfl

/- ### Scheduler persistence (towards C7, C10) -/

/-- The status the scheduler persists for a completed PullResult: success on
success, conflict when unresolved conflicts were reported, failed
otherwise. -/
def pull_status_of (r : PullResult) : String :=
  if r.success then "success"
  else if r.conflicts.isEmpty = false then "conflict" else "failed"

/-- C7: for a completed sync on an existing path, the scheduler persists
exactly pull_status_of of the PullResult — success when the pull succeeded,
conflict when it failed with a non-empty conflicts list, failed otherwise —
and it does so through the single update_pull_status transaction, which
both rewrites the mapping row (status and last-pull timestamp) and appends
exactly one pull_logs entry. -/
theorem pull_thread_persists (store : Store) (m : FolderRepoMapping)
    (env : PullEnv) (now : Int) (hp : env.pathExists = true) :
    pull_repository_thread store m env now =
      update_pull_status store m.id
        (pull_status_of (pull_repository env m.repo_path))
        (pull_repository env m.repo_path).message now ∧
    ((pull_repository env m.repo_path).success = true →
      pull_status_of (pull_repository env m.repo_path) = "success") ∧
    ((pull_repository env m.repo_path).success = false →
      (pull_repository env m.repo_path).conflicts ≠ [] →
      pull_status_of (pull_repository env m.repo_path) = "conflict") ∧
    ((pull_repository env m.repo_path).success = false →
      (pull_repository env m.repo_path).conflicts = [] →
      pull_status_of (pull_repository env m.repo_path) = "failed") ∧
    (update_pull_status store m.id
        (pull_status_of (pull_repository env m.repo_path))
        (pull_repository env m.repo_path).message now).logs =
      store.logs ++
        [⟨m.id, "pull", pull_status_of (pull_repository env m.repo_path),
          (pull_repository env m.repo_path).message⟩] ∧
    (∀ mm ∈ store.mappings, mm.id = m.id →
      { mm with
          pull_status := pull_status_of (pull_repository env m.repo_path),
          last_pull_at := some now, updated_at := some now } ∈
        (update_pull_status store m.id
          (pull_status_of (pull_repository env m.repo_path))
          (pull_repository env m.repo_path).message now).mappings) := by
  refine ⟨?_, ?_, ?_, ?_, rfl, ?_⟩
  · unfold pull_repository_thread pull_status_of
    simp only [hp]
    by_cases hs : (pull_repository env m.repo_path).success <;> simp [hs]
  · intro h
    unfold pull_status_of
    simp [h]
  · intro h hc
    cases hcl : (pull_repository env m.repo_path).conflicts with
    | nil => exact absurd hcl hc
    | cons a t =>
      unfold pull_status_of
      simp [h, hcl]
  · intro h hc
    unfold pull_status_of
    simp [h, hc]
  · intro mm hmm hid
    have heq : (fun mm' : FolderRepoMapping =>
        if mm'.id = m.id then
          { mm' with
              pull_status := pull_status_of (pull_repository env m.repo_path),
              last_pull_at := some now, updated_at := some now }
        else mm') mm =
        { mm with
            pull_status := pull_status_of (pull_repository env m.repo_path),
            last_pull_at := some now, updated_at := some now } := by
      simp [hid]
    rw [← heq]
    exact List.mem_map_of_mem _ hmm

/-- Witness for C7 at a concrete store, mapping and environment. -/
theorem pull_thread_persists_witness :
    pull_repository_thread ⟨[], []⟩
        ⟨1, "/tmp/repo", "repo", "main", none, "pending", true, none⟩
        ⟨true, .ok ⟨true, false, 0, 0, [], [], []⟩, [], false, false, false,
          true, "Already up to date.", "", false⟩ 7 =
      update_pull_status ⟨[], []⟩ 1
        (pull_status_of (pull_repository
          ⟨true, .ok ⟨true, false, 0, 0, [], [], []⟩, [], false, false,
            false, true, "Already up to date.", "", false⟩ "/tmp/repo"))
        (pull_repository
          ⟨true, .ok ⟨true, false, 0, 0, [], [], []⟩, [], false, false,
            false, true, "Already up to date.", "", false⟩
          "/tmp/repo").message 7 :=
  (pull_thread_persists ⟨[], []⟩
      ⟨1, "/tmp/repo", "repo", "main", none, "pending", true, none⟩
      ⟨true, .ok ⟨true, false, 0, 0, [], [], []⟩, [], false, false, false,
        true, "Already up to date.", "", false⟩ 7 rfl).1

/-- C10: when the pull fails with an error text that mentions conflict in
lower case but has no line in which CONFLICT is followed by an in-phrase
naming a file, the result is a failure with an empty conflicts list, and
the scheduler consequently persists the status failed, not conflict. -/
theorem conflict_text_without_files (store : Store) (m : FolderRepoMapping)
    (env : PullEnv) (st : GitStatus) (now : Int)
    (hp : env.pathExists = true) (hst : env.statusOutcome = .ok st)
    (hcf : st.has_conflicts = false) (hcl : st.is_clean = true)
    (hpt : env.pullTimeout = false) (hpz : env.pullExitZero = false)
    (hword : str_contains (str_lower env.pullStderr) "conflict" = true)
    (hlines : ∀ line ∈ split_lines env.pullStderr,
      conflict_search line.data = none) :
    pull_repository env m.repo_path =
      ⟨false, "Pull冲突: " ++ env.pullStderr, [], false⟩ ∧
    pull_repository_thread store m env now =
      update_pull_status store m.id "failed"
        ("Pull冲突: " ++ env.pullStderr) now := by
  have hpc : parse_conflicts env.pullStderr = [] := by
    unfold parse_conflicts
    rw [List.filterMap_eq_nil_iff]
    intro l hl
    unfold parse_conflict_line
    rw [hlines l hl]
    simp
  have hres : pull_repository env m.repo_path =
      ⟨false, "Pull冲突: " ++ env.pullStderr, [], false⟩ := by
    unfold pull_repository pull_repository_trace
    simp [hp, hst, hcf, hcl, hpt, hpz, hword, hpc]
  refine ⟨hres, ?_⟩
  unfold pull_repository_thread
  simp only [hp]
  rw [hres]
  simp

/-- Witness for C10 on the error text of a failed pull that mentions a
merge conflict in lower case only. -/
theorem conflict_text_without_files_witness :
    pull_repository
        ⟨true, .ok ⟨true, false, 0, 0, [], [], []⟩, [], false, false, false,
          false, "", "error: merge conflict detected", false⟩ "/tmp/repo" =
      ⟨false, "Pull冲突: error: merge conflict detected", [], false⟩ ∧
    pull_repository_thread ⟨[], []⟩
        ⟨1, "/tmp/repo", "repo", "main", none, "pending", true, none⟩
        ⟨true, .ok ⟨true, false, 0, 0, [], [], []⟩, [], false, false, false,
          false, "", "error: merge conflict detected", false⟩ 7 =
      update_pull_status ⟨[], []⟩ 1 "failed"
        "Pull冲突: error: merge conflict detected" 7 :=
  conflict_text_without_files ⟨[], []⟩
    ⟨1, "/tmp/repo", "repo", "main", none, "pending", true, none⟩
    ⟨true, .ok ⟨true, false, 0, 0, [], [], []⟩, [], false, false, false,
      false, "", "error: merge conflict detected", false⟩
    ⟨true, false, 0, 0, [], [], []⟩ 7 rfl rfl rfl rfl rfl rfl (by decide)
    (by decide)

end AutoMatchPull
